import Mathlib

/-!
# Verification of the `housing_dpe` pipeline

Shallow embedding of the `housing_dpe` Python pipeline
(`src/housing_dpe/pipeline.py`, `src/housing_dpe/validate.py`) and proofs
of its specified properties.

Modelling conventions:
* `float64` numeric draws and arithmetic are modelled over `ℚ`; the binary
  float literals 0.5, 0.8, 0.05, 0.02 are taken as exact rationals (no claim
  below depends on their binary rounding).
* `numpy.random.default_rng(seed)` is a deterministic pseudo-random source;
  it is modelled as a function from the seed to a record of draw streams,
  universally quantified in the theorems.  Range-restricted draws
  (`rng.integers(0, n_firms)`, `rng.choice(years)`) are modelled by reducing
  a raw stream modulo the range size, which is exactly the guarantee the
  numpy API gives (a value in the requested range, a deterministic function
  of the state).
* The treatment comparison `rng.uniform(0, 1) < p`, where `p` goes through
  the transcendental `exp`, is modelled by its Boolean outcome stream; every
  property proved below only uses that the comparison yields a Boolean.
* A pandas `DataFrame` is a list of rows together with an explicit index
  list (pandas row labels); `sort_values` reorders rows with their labels,
  `reset_index(drop=True)` renumbers the labels from 0.
-/

namespace HousingDpe

/-- A float64 value as the validator sees it: finite (modelled as a
rational) or non-finite (NaN and ±inf collapsed into one constructor). -/
inductive FVal where
  | fin (q : ℚ)
  | nonfinite
  deriving DecidableEq, Repr

/-- Model of `np.isfinite` on a single value. -/
def FVal.isFinite : FVal → Bool
  | .fin _ => true
  | .nonfinite => false

/-- A row of the generated panel: columns `firm_id, year, x, treat, y` in
the order `generate_synthetic_panel` builds them.  `firm_id` and `year` are
the non-negative integers the generator produces; `treat` is the
`astype(int)` of a Boolean. -/
structure Row where
  firm_id : ℕ
  year : ℕ
  x : ℚ
  treat : ℕ
  y : ℚ
  deriving DecidableEq, Repr

/-- A pandas DataFrame of panel rows: the row labels (`idx`) and the rows,
aligned by position. -/
structure DataFrame where
  idx : List ℕ
  rows : List Row
  deriving DecidableEq, Repr

/-- The draw streams `generate_synthetic_panel` takes from
`np.random.default_rng(seed)`, in the order the source draws them.
`firmRaw` backs `rng.integers(0, n_firms)` (reduced mod `n_firms`),
`yearIdx` backs `rng.choice(years)` (an index into the 11 years, reduced
mod 11), `xs` backs `rng.normal(0, 1)`, `treatLt` is the outcome of
`rng.uniform(0, 1) < p`, and `eps` backs the noise `rng.normal(0, 1.0)`. -/
structure Streams where
  firmRaw : ℕ → ℕ
  yearIdx : ℕ → ℕ
  xs : ℕ → ℚ
  treatLt : ℕ → Bool
  eps : ℕ → ℚ

/-- The grouping key `(firm_id, year)` of a row. -/
def rowKey (r : Row) : ℕ × ℕ := (r.firm_id, r.year)

/-- Lexicographic non-strict comparison on `(firm_id, year)` keys, the order
`sort_values(["firm_id", "year"])` sorts by (ascending). -/
def lexLe (a b : ℕ × ℕ) : Bool :=
  decide (a.1 < b.1) || (decide (a.1 = b.1) && decide (a.2 ≤ b.2))

/-- One aggregated row of `groupby(["firm_id", "year"]).agg(...)`:
`x` and `y` are averaged over the group, `treat` is the group maximum. -/
def aggGroup (rows : List Row) (k : ℕ × ℕ) : Row :=
  let g := rows.filter fun r => decide (rowKey r = k)
  { firm_id := k.1
    year := k.2
    x := (g.map Row.x).sum / (g.length : ℚ)
    treat := (g.map Row.treat).foldr max 0
    y := (g.map Row.y).sum / (g.length : ℚ) }

/-- Model of `df.groupby(["firm_id", "year"], as_index=False).agg` with the
mapping `"x": "mean", "treat": "max", "y": "mean"`.  Groups are listed per distinct key
(first-occurrence order; the subsequent `sort_values` fixes the final
order either way) and the result carries a fresh 0-based range index
(`as_index=False`). -/
def groupbyAgg (rows : List Row) : DataFrame :=
  let keys := (rows.map rowKey).dedup
  let agged := keys.map (aggGroup rows)
  { idx := List.range agged.length, rows := agged }

/-- Model of `df.sort_values(["firm_id", "year"])`: stably sorts the rows by the
key, carrying each row's existing label with it. -/
def sortValues (df : DataFrame) : DataFrame :=
  let ps := (df.idx.zip df.rows).mergeSort fun a b => lexLe (rowKey a.2) (rowKey b.2)
  { idx := ps.map Prod.fst, rows := ps.map Prod.snd }

/-- Model of `df.reset_index(drop=True)`: discard the labels and renumber 0.. . -/
def resetIndexDrop (df : DataFrame) : DataFrame :=
  { idx := List.range df.rows.length, rows := df.rows }

/-- The pre-aggregation frame `generate_synthetic_panel` builds before the
`groupby`: row `i` is `{firm_id[i], year[i], x[i], treat[i], y[i]}` with
`firm_id = rng.integers(0, n_firms)`, `year = rng.choice(2010..2020)`,
`x = rng.normal(0, 1)`, `treat = (rng.uniform(0, 1) < p).astype(int)`,
`y = 0.5*treat + 0.8*x + firm_fe + year_fe + eps`, where
`firm_fe = (firm_id % 10 - 5) * 0.05` and
`year_fe = (year - year.mean()) * 0.02` (the mean over all drawn years). -/
def rawRows (rng : ℕ → Streams) (n_rows seed : ℕ) : List Row :=
  let s := rng seed
  let n_firms := max 50 (Nat.sqrt n_rows)
  let firm_id : ℕ → ℕ := fun i => s.firmRaw i % n_firms
  let year : ℕ → ℕ := fun i => 2010 + s.yearIdx i % 11
  let yearMean : ℚ := ((List.range n_rows).map fun i => ((year i : ℚ))).sum / (n_rows : ℚ)
  (List.range n_rows).map fun i =>
    let t : ℕ := if s.treatLt i then 1 else 0
    let firm_fe : ℚ := ((firm_id i % 10 : ℚ) - 5) * (5 / 100)
    let year_fe : ℚ := ((year i : ℚ) - yearMean) * (2 / 100)
    { firm_id := firm_id i
      year := year i
      x := s.xs i
      treat := t
      y := (1 / 2) * (t : ℚ) + (4 / 5) * s.xs i + firm_fe + year_fe + s.eps i }

/-- Model of `generate_synthetic_panel(n_rows, seed)` from `pipeline.py`, lines
38–76, parameterised by the model of `np.random.default_rng`: draw the raw
frame, group by `(firm_id, year)` with the mean/max/mean aggregation, sort
by `(firm_id, year)`, and renumber the index. -/
def generate_synthetic_panel (rng : ℕ → Streams) (n_rows seed : ℕ) : DataFrame :=
  resetIndexDrop (sortValues (groupbyAgg (rawRows rng n_rows seed)))

/-- A row as the validator receives it: after pandera's `coerce=True` the
columns are int64 / float64, so integer columns are `ℤ` and float columns
are `FVal`. -/
structure RawRow where
  firm_id : ℤ
  year : ℤ
  x : FVal
  treat : ℤ
  y : FVal
  deriving DecidableEq, Repr

/-- The grouping key of a validator-level row. -/
def rawKey (r : RawRow) : ℤ × ℤ := (r.firm_id, r.year)

/-- The generated frame handed to the validator: `firm_id`, `year`, `treat`
are int64, `x`, `y` are finite float64 by construction. -/
def Row.toRaw (r : Row) : RawRow :=
  { firm_id := (r.firm_id : ℤ)
    year := (r.year : ℤ)
    x := .fin r.x
    treat := (r.treat : ℤ)
    y := .fin r.y }

def toRaw (rows : List Row) : List RawRow := rows.map Row.toRaw

/-- The aggregated failure list pandera's lazy validation collects for
`schema()` from `validate.py`: the per-column checks in schema order
(`firm_id ≥ 0`, `year ∈ [2000, 2035]`, `x` finite, `treat ∈ [0, 1]`,
`y` finite) followed by the two dataframe-wide checks.  The two custom
messages are the source's strings; the built-in checks carry descriptive
stand-ins for pandera's generated messages. -/
def validationErrors (df : List RawRow) : List String :=
  (if df.all fun r => decide (0 ≤ r.firm_id) then []
   else ["firm_id: greater_than_or_equal_to 0 failed"]) ++
  (if df.all fun r => decide (2000 ≤ r.year ∧ r.year ≤ 2035) then []
   else ["year: in_range 2000 2035 failed"]) ++
  (if df.all fun r => r.x.isFinite then []
   else ["x: non-finite values detected"]) ++
  (if df.all fun r => decide (r.treat = 0 ∨ r.treat = 1) then []
   else ["treat: isin 0 1 failed"]) ++
  (if df.all fun r => r.y.isFinite then []
   else ["y: non-finite values detected"]) ++
  (if (df.map rawKey).Nodup then []
   else ["Duplicate (firm_id, year) detected."]) ++
  (if 0 < df.length then [] else ["Empty dataframe."])

/-- Model of `validate_df(df) = schema().validate(df, lazy=True)`: run every check,
then either return the (coerced) frame or raise with the aggregated
failure list. -/
def validate_df (df : List RawRow) : Except (List String) (List RawRow) :=
  if (validationErrors df).isEmpty then .ok df else .error (validationErrors df)

/-- A dataset as the estimator sees it: named columns.  The estimator only
inspects column presence and hands the numbers to the fitting routine, so a
column is a list of rationals. -/
abbrev Dfm := List (String × List ℚ)

/-- Column lookup `df[name]`; `none` models the `KeyError` / patsy
"column not found" situation. -/
def getCol (df : Dfm) (name : String) : Option (List ℚ) :=
  (df.find? fun c => c.1 == name).map Prod.snd

/-- A model formula `lhs ~ rhs₁ + rhs₂ + ...` in parsed form (the source
treats the formula string as opaque and hands it to patsy). -/
structure Formula where
  lhs : String
  rhs : List String
  deriving DecidableEq, Repr

/-- A fitted result: the endog/exog data and parameter names the fit was
built from, plus the cluster groups when a cluster covariance was
requested.  The floating-point least-squares numbers themselves are outside
the embedding; no claim below depends on them. -/
structure FitRes where
  endog : List ℚ
  exogNames : List String
  exog : List (List ℚ)
  groups : Option (List ℚ)
  deriving DecidableEq, Repr

/-- Model of `smf.ols(formula, data=df).fit()`, by its interface contract —
the fit succeeds precisely when every column the formula references exists
in the data, and the design matrix is the intercept column followed by the
regressors in formula order (patsy's construction). -/
def olsFit (df : Dfm) (formula : Formula) : Except String FitRes :=
  match getCol df formula.lhs, formula.rhs.mapM (getCol df) with
  | some yCol, some cols =>
      .ok { endog := yCol
            exogNames := "Intercept" :: formula.rhs
            exog := List.replicate yCol.length 1 :: cols
            groups := none }
  | _, _ => .error "column not found"

/-- The covariance keywords `get_robustcov_results` accepts without extra
arguments (classical and the heteroskedasticity-robust family). -/
def covKeywords : List String := ["nonrobust", "HC0", "HC1", "HC2", "HC3"]

/-- Model of `estimate(df, formula, cov_type)` from `pipeline.py`, lines 79–85: fit
OLS, then for `"cluster"` re-derive the covariance grouped by
`df["firm_id"]` (a `KeyError` when that column is absent); any other mode
goes through `get_robustcov_results(cov_type=cov_type)` and never touches
`firm_id`. -/
def estimate (df : Dfm) (formula : Formula) (cov_type : String) : Except String FitRes :=
  match olsFit df formula with
  | .error e => .error e
  | .ok m =>
    if cov_type = "cluster" then
      match getCol df "firm_id" with
      | some g => .ok { m with groups := some g }
      | none => .error "KeyError: firm_id"
    else if cov_type ∈ covKeywords then .ok m
    else .error ("unrecognized cov_type: " ++ cov_type)

/-- Model of `_get_param_idx(name)` from `save_outputs` (`pipeline.py`, lines
119–126): when the recovered parameter-name list is truthy (non-`None` and
non-empty) and contains `name`, return its index; otherwise fall back to
index 1 — the documented "second column after the intercept" assumption. -/
def get_param_idx (param_names : Option (List String)) (name : String) : ℕ :=
  match param_names with
  | some ns => if ns ≠ [] ∧ name ∈ ns then ns.indexOf name else 1
  | none => 1

/-- Model of `safe_git_commit()` from `pipeline.py`, lines 169–173, over the outcome
of the `git rev-parse HEAD` subprocess: the stripped stdout on success, the
sentinel `"unknown"` on any exception. -/
def safe_git_commit (git : Except String String) : String :=
  match git with
  | .ok out => out.trim
  | .error _ => "unknown"

/-- The `Params` record `load_params` builds from the config file. -/
structure Params where
  seed : ℕ
  n_rows : ℕ
  formula : Formula
  cov_type : String

/-- The outside world a run interacts with: the config-parse outcome, the
`git rev-parse` outcome, and the outcome of the output-directory writes in
`save_outputs` (each modelled by its result; all are synchronous). -/
structure RunEnv where
  config : Except String Params
  git : Except String String
  io : Except String Unit

/-- The fields of the metadata record relevant to the claims. -/
structure RunMeta where
  git_commit : String
  n_obs : ℕ
  deriving DecidableEq, Repr

def FVal.toRatOr0 : FVal → ℚ
  | .fin q => q
  | .nonfinite => 0

/-- The validated frame as the estimator's named-column dataset. -/
def toDfm (rows : List RawRow) : Dfm :=
  [("firm_id", rows.map fun r => (r.firm_id : ℚ)),
   ("year", rows.map fun r => (r.year : ℚ)),
   ("x", rows.map fun r => r.x.toRatOr0),
   ("treat", rows.map fun r => (r.treat : ℚ)),
   ("y", rows.map fun r => r.y.toRatOr0)]

/-- Model of `run(config_path, outdir)` from `pipeline.py`: load params, generate,
validate, estimate, write outputs (whose metadata embeds
`safe_git_commit()`).  Every stage failure propagates and aborts; only the
git lookup inside `save_outputs` degrades gracefully. -/
def run (rng : ℕ → Streams) (env : RunEnv) : Except String RunMeta :=
  match env.config with
  | .error e => .error e
  | .ok p =>
    let df := generate_synthetic_panel rng p.n_rows p.seed
    match validate_df (toRaw df.rows) with
    | .error es => .error (String.intercalate "; " es)
    | .ok vdf =>
      match estimate (toDfm vdf) p.formula p.cov_type with
      | .error e => .error e
      | .ok _res =>
        match env.io with
        | .error e => .error e
        | .ok _ => .ok { git_commit := safe_git_commit env.git, n_obs := vdf.length }

/-- A concrete instantiation of the RNG-stream model, used to evaluate the
theorems at concrete inputs. -/
def rng0 : ℕ → Streams := fun _ =>
  { firmRaw := fun i => 7 * i + 3
    yearIdx := fun i => 5 * i
    xs := fun i => (i : ℚ) / 3
    treatLt := fun i => i % 2 == 0
    eps := fun _ => 1 / 7 }

/-! ## Structural lemmas about the generator -/

theorem lexLe_trans_of (a b c : ℕ × ℕ) (h₁ : lexLe a b = true) (h₂ : lexLe b c = true) :
    lexLe a c = true := by
  simp only [lexLe, Bool.or_eq_true, Bool.and_eq_true, decide_eq_true_eq] at h₁ h₂ ⊢
  omega

theorem lexLe_total_of (a b : ℕ × ℕ) : (lexLe a b || lexLe b a) = true := by
  simp only [lexLe, Bool.or_eq_true, Bool.and_eq_true, decide_eq_true_eq]
  omega

/-- Lemma: `sort_values` permutes the rows (when labels and rows are aligned). -/
theorem sortValues_rows_perm (df : DataFrame) (h : df.idx.length = df.rows.length) :
    (sortValues df).rows.Perm df.rows := by
  have hp := List.mergeSort_perm (df.idx.zip df.rows)
    (fun a b => lexLe (rowKey a.2) (rowKey b.2))
  have hz : (df.idx.zip df.rows).map Prod.snd = df.rows :=
    List.map_snd_zip _ _ (le_of_eq h.symm)
  simpa [sortValues, hz] using hp.map Prod.snd

/-- The keys of the aggregated frame are the distinct keys of the input. -/
theorem groupbyAgg_rows_map_key (rows : List Row) :
    (groupbyAgg rows).rows.map rowKey = (rows.map rowKey).dedup := by
  have hfun : ∀ k : ℕ × ℕ, rowKey (aggGroup rows k) = k := by
    intro k
    simp [rowKey, aggGroup]
  simp [groupbyAgg, List.map_map, Function.comp_def, hfun]

theorem generate_rows_perm (rng : ℕ → Streams) (n_rows seed : ℕ) :
    (generate_synthetic_panel rng n_rows seed).rows.Perm
      (groupbyAgg (rawRows rng n_rows seed)).rows := by
  have h : (groupbyAgg (rawRows rng n_rows seed)).idx.length
      = (groupbyAgg (rawRows rng n_rows seed)).rows.length := by
    simp [groupbyAgg]
  simpa [generate_synthetic_panel, resetIndexDrop] using
    sortValues_rows_perm (groupbyAgg (rawRows rng n_rows seed)) h

/-- No two rows of the generated frame share a `(firm_id, year)` key. -/
theorem generate_key_nodup (rng : ℕ → Streams) (n_rows seed : ℕ) :
    ((generate_synthetic_panel rng n_rows seed).rows.map rowKey).Nodup := by
  have hp := (generate_rows_perm rng n_rows seed).map rowKey
  have hn : ((groupbyAgg (rawRows rng n_rows seed)).rows.map rowKey).Nodup := by
    rw [groupbyAgg_rows_map_key]
    exact List.nodup_dedup _
  exact hp.symm.nodup hn

theorem rawRows_length (rng : ℕ → Streams) (n_rows seed : ℕ) :
    (rawRows rng n_rows seed).length = n_rows := by
  simp [rawRows]

theorem generate_rows_length (rng : ℕ → Streams) (n_rows seed : ℕ) :
    (generate_synthetic_panel rng n_rows seed).rows.length
      = ((rawRows rng n_rows seed).map rowKey).dedup.length := by
  have h := (generate_rows_perm rng n_rows seed).length_eq
  simpa [groupbyAgg] using h

theorem generate_rows_ne_nil (rng : ℕ → Streams) (n_rows seed : ℕ) (h : 1 ≤ n_rows) :
    (generate_synthetic_panel rng n_rows seed).rows ≠ [] := by
  have h1 : rawRows rng n_rows seed ≠ [] := by
    intro hnil
    have := rawRows_length rng n_rows seed
    rw [hnil] at this
    simp at this
    omega
  have h3 : ((rawRows rng n_rows seed).map rowKey).dedup ≠ [] := by
    rw [ne_eq, List.dedup_eq_nil]
    simp [h1]
  intro hnil
  have := generate_rows_length rng n_rows seed
  rw [hnil] at this
  exact h3 (List.length_eq_zero.mp this.symm)

/-- Each generated row was aggregated from some distinct raw key. -/
theorem generate_mem (rng : ℕ → Streams) (n_rows seed : ℕ) (r : Row)
    (hr : r ∈ (generate_synthetic_panel rng n_rows seed).rows) :
    ∃ k ∈ ((rawRows rng n_rows seed).map rowKey).dedup,
      r = aggGroup (rawRows rng n_rows seed) k := by
  have hm := (generate_rows_perm rng n_rows seed).mem_iff.mp hr
  simp only [groupbyAgg, List.mem_map] at hm
  obtain ⟨k, hk, he⟩ := hm
  exact ⟨k, hk, he.symm⟩

/-- Bounds satisfied by every pre-aggregation row. -/
theorem rawRows_year_treat (rng : ℕ → Streams) (n_rows seed : ℕ) (r : Row)
    (hr : r ∈ rawRows rng n_rows seed) :
    2010 ≤ r.year ∧ r.year ≤ 2020 ∧ r.treat ≤ 1 := by
  simp only [rawRows, List.mem_map, List.mem_range] at hr
  obtain ⟨i, _, rfl⟩ := hr
  refine ⟨by simp, ?_, ?_⟩
  · have : (rng seed).yearIdx i % 11 < 11 := Nat.mod_lt _ (by omega)
    simp
    omega
  · dsimp only
    split <;> omega

theorem foldr_max_le_one (l : List ℕ) (h : ∀ t ∈ l, t ≤ 1) : l.foldr max 0 ≤ 1 := by
  induction l with
  | nil => simp
  | cons a l ih =>
    simp only [List.foldr_cons]
    exact max_le (h a (by simp)) (ih fun t ht => h t (by simp [ht]))

/-- Bounds satisfied by every row of the generated dataset. -/
theorem generate_rows_props (rng : ℕ → Streams) (n_rows seed : ℕ) (r : Row)
    (hr : r ∈ (generate_synthetic_panel rng n_rows seed).rows) :
    2010 ≤ r.year ∧ r.year ≤ 2020 ∧ r.treat ≤ 1 := by
  obtain ⟨k, hk, rfl⟩ := generate_mem rng n_rows seed r hr
  rw [List.mem_dedup, List.mem_map] at hk
  obtain ⟨r0, hr0, hkey⟩ := hk
  have hb := rawRows_year_treat rng n_rows seed r0 hr0
  subst hkey
  refine ⟨hb.1, hb.2.1, ?_⟩
  simp only [aggGroup]
  refine foldr_max_le_one _ ?_
  intro t ht
  rw [List.mem_map] at ht
  obtain ⟨r1, hr1, rfl⟩ := ht
  exact (rawRows_year_treat rng n_rows seed r1 (List.mem_of_mem_filter hr1)).2.2

/-- Every check of the schema passes on a non-empty generated dataset. -/
theorem validationErrors_generate (rng : ℕ → Streams) (n_rows seed : ℕ) (h : 1 ≤ n_rows) :
    validationErrors (toRaw (generate_synthetic_panel rng n_rows seed).rows) = [] := by
  have e1 : ((toRaw (generate_synthetic_panel rng n_rows seed).rows).all
      fun r => decide (0 ≤ r.firm_id)) = true := by
    rw [List.all_eq_true]
    intro rr hrr
    rw [toRaw, List.mem_map] at hrr
    obtain ⟨r, _, rfl⟩ := hrr
    simp [Row.toRaw]
  have e2 : ((toRaw (generate_synthetic_panel rng n_rows seed).rows).all
      fun r => decide (2000 ≤ r.year ∧ r.year ≤ 2035)) = true := by
    rw [List.all_eq_true]
    intro rr hrr
    rw [toRaw, List.mem_map] at hrr
    obtain ⟨r, hr, rfl⟩ := hrr
    have hp := generate_rows_props rng n_rows seed r hr
    simp [Row.toRaw]
    omega
  have e3 : ((toRaw (generate_synthetic_panel rng n_rows seed).rows).all
      fun r => r.x.isFinite) = true := by
    rw [List.all_eq_true]
    intro rr hrr
    rw [toRaw, List.mem_map] at hrr
    obtain ⟨r, _, rfl⟩ := hrr
    rfl
  have e4 : ((toRaw (generate_synthetic_panel rng n_rows seed).rows).all
      fun r => decide (r.treat = 0 ∨ r.treat = 1)) = true := by
    rw [List.all_eq_true]
    intro rr hrr
    rw [toRaw, List.mem_map] at hrr
    obtain ⟨r, hr, rfl⟩ := hrr
    have hp := generate_rows_props rng n_rows seed r hr
    simp [Row.toRaw]
    omega
  have e5 : ((toRaw (generate_synthetic_panel rng n_rows seed).rows).all
      fun r => r.y.isFinite) = true := by
    rw [List.all_eq_true]
    intro rr hrr
    rw [toRaw, List.mem_map] at hrr
    obtain ⟨r, _, rfl⟩ := hrr
    rfl
  have e6 : ((toRaw (generate_synthetic_panel rng n_rows seed).rows).map rawKey).Nodup := by
    have hmap : (toRaw (generate_synthetic_panel rng n_rows seed).rows).map rawKey
        = ((generate_synthetic_panel rng n_rows seed).rows.map rowKey).map
            (fun p : ℕ × ℕ => ((p.1 : ℤ), (p.2 : ℤ))) := by
      simp [toRaw, List.map_map, Function.comp_def, rawKey, rowKey, Row.toRaw]
    rw [hmap]
    have hinj : Function.Injective (fun p : ℕ × ℕ => ((p.1 : ℤ), (p.2 : ℤ))) := by
      intro p q hpq
      simp only [Prod.mk.injEq, Int.natCast_inj] at hpq
      cases p
      cases q
      simp_all
    exact (generate_key_nodup rng n_rows seed).map hinj
  have e7 : 0 < (toRaw (generate_synthetic_panel rng n_rows seed).rows).length := by
    rw [toRaw, List.length_map, List.length_pos]
    exact generate_rows_ne_nil rng n_rows seed h
  simp only [validationErrors, e1, e2, e3, e4, e5]
  simp [e6, e7]

/-! ## Claim theorems -/

/-- C1: for every `(row_count, seed)` with `row_count ≥ 1`, two calls of
`generate_synthetic_panel` with identical arguments produce identical
datasets — the same number of rows and the same `firm_id`, `year`, `x`,
`treat`, `y` values in the same row order.  All randomness in the source is
drawn from `np.random.default_rng(seed)`, so the output is a function of
the arguments alone (for any model `rng` of the deterministic RNG). -/
theorem generate_deterministic (rng : ℕ → Streams) (n_rows seed : ℕ)
    (d d' : DataFrame) (h : 1 ≤ n_rows)
    (h₁ : d = generate_synthetic_panel rng n_rows seed)
    (h₂ : d' = generate_synthetic_panel rng n_rows seed) :
    d.rows.length = d'.rows.length ∧
    ∀ (i : ℕ) (hi : i < d.rows.length) (hi' : i < d'.rows.length),
      (d.rows.get ⟨i, hi⟩).firm_id = (d'.rows.get ⟨i, hi'⟩).firm_id ∧
      (d.rows.get ⟨i, hi⟩).year = (d'.rows.get ⟨i, hi'⟩).year ∧
      (d.rows.get ⟨i, hi⟩).x = (d'.rows.get ⟨i, hi'⟩).x ∧
      (d.rows.get ⟨i, hi⟩).treat = (d'.rows.get ⟨i, hi'⟩).treat ∧
      (d.rows.get ⟨i, hi⟩).y = (d'.rows.get ⟨i, hi'⟩).y := by
  subst h₁
  subst h₂
  exact ⟨rfl, fun i hi hi' => ⟨rfl, rfl, rfl, rfl, rfl⟩⟩

theorem generate_deterministic_witness :
    1 ≤ 3 ∧
    ((generate_synthetic_panel rng0 3 0).rows.length
        = (generate_synthetic_panel rng0 3 0).rows.length ∧
     ∀ (i : ℕ) (hi : i < (generate_synthetic_panel rng0 3 0).rows.length)
        (hi' : i < (generate_synthetic_panel rng0 3 0).rows.length),
      ((generate_synthetic_panel rng0 3 0).rows.get ⟨i, hi⟩).firm_id
          = ((generate_synthetic_panel rng0 3 0).rows.get ⟨i, hi'⟩).firm_id ∧
      ((generate_synthetic_panel rng0 3 0).rows.get ⟨i, hi⟩).year
          = ((generate_synthetic_panel rng0 3 0).rows.get ⟨i, hi'⟩).year ∧
      ((generate_synthetic_panel rng0 3 0).rows.get ⟨i, hi⟩).x
          = ((generate_synthetic_panel rng0 3 0).rows.get ⟨i, hi'⟩).x ∧
      ((generate_synthetic_panel rng0 3 0).rows.get ⟨i, hi⟩).treat
          = ((generate_synthetic_panel rng0 3 0).rows.get ⟨i, hi'⟩).treat ∧
      ((generate_synthetic_panel rng0 3 0).rows.get ⟨i, hi⟩).y
          = ((generate_synthetic_panel rng0 3 0).rows.get ⟨i, hi'⟩).y) :=
  ⟨by decide, generate_deterministic rng0 3 0 _ _ (by decide) rfl rfl⟩

/-- C2: for every `row_count ≥ 1` and every seed, the generated dataset has
no two rows with the same `(firm_id, year)` pair, is non-empty, and is
accepted unmodified by `validate_df`. -/
theorem generate_accepted_by_validator (rng : ℕ → Streams) (n_rows seed : ℕ)
    (h : 1 ≤ n_rows) :
    ((generate_synthetic_panel rng n_rows seed).rows.map rowKey).Nodup ∧
    (generate_synthetic_panel rng n_rows seed).rows ≠ [] ∧
    validate_df (toRaw (generate_synthetic_panel rng n_rows seed).rows)
      = .ok (toRaw (generate_synthetic_panel rng n_rows seed).rows) := by
  refine ⟨generate_key_nodup rng n_rows seed, generate_rows_ne_nil rng n_rows seed h, ?_⟩
  simp [validate_df, validationErrors_generate rng n_rows seed h]

theorem generate_accepted_by_validator_witness :
    1 ≤ 2 ∧
    (((generate_synthetic_panel rng0 2 0).rows.map rowKey).Nodup ∧
     (generate_synthetic_panel rng0 2 0).rows ≠ [] ∧
     validate_df (toRaw (generate_synthetic_panel rng0 2 0).rows)
       = .ok (toRaw (generate_synthetic_panel rng0 2 0).rows)) :=
  ⟨by decide, generate_accepted_by_validator rng0 2 0 (by decide)⟩

/-- C7: for every `row_count ≥ 1` and every seed, the generated dataset has
at most `row_count` rows — the `(firm_id, year)` aggregation can only
reduce the row count. -/
theorem generate_row_count_le (rng : ℕ → Streams) (n_rows seed : ℕ) (h : 1 ≤ n_rows) :
    (generate_synthetic_panel rng n_rows seed).rows.length ≤ n_rows := by
  rw [generate_rows_length]
  calc ((rawRows rng n_rows seed).map rowKey).dedup.length
      ≤ ((rawRows rng n_rows seed).map rowKey).length :=
        (List.dedup_sublist _).length_le
    _ = n_rows := by rw [List.length_map, rawRows_length]

theorem generate_row_count_le_witness :
    1 ≤ 5 ∧ (generate_synthetic_panel rng0 5 0).rows.length ≤ 5 :=
  ⟨by decide, generate_row_count_le rng0 5 0 (by decide)⟩

/-- C10: called with `row_count = 0`, the generator does not raise but
returns an empty 0-row dataset, which `validate_df` then rejects with the
aggregated error consisting of "Empty dataframe." — the pipeline fails at
the validation stage, not the generation stage. -/
theorem generate_zero_rows (rng : ℕ → Streams) (seed : ℕ) :
    (generate_synthetic_panel rng 0 seed).rows = [] ∧
    validate_df (toRaw (generate_synthetic_panel rng 0 seed).rows)
      = .error ["Empty dataframe."] := by
  have h0 : (generate_synthetic_panel rng 0 seed).rows = [] := by
    simp [generate_synthetic_panel, rawRows, groupbyAgg, sortValues, resetIndexDrop]
  refine ⟨h0, ?_⟩
  rw [h0]
  rfl

/-- C9: for every `row_count ≥ 1` and every seed, the generated rows are
in strictly ascending lexicographic `(firm_id, year)` order and the frame
carries a fresh 0-based consecutive index. -/
theorem generate_sorted_fresh_index (rng : ℕ → Streams) (n_rows seed : ℕ)
    (h : 1 ≤ n_rows) :
    (generate_synthetic_panel rng n_rows seed).idx
      = List.range (generate_synthetic_panel rng n_rows seed).rows.length ∧
    List.Pairwise
      (fun a b : Row => a.firm_id < b.firm_id ∨ (a.firm_id = b.firm_id ∧ a.year < b.year))
      (generate_synthetic_panel rng n_rows seed).rows := by
  refine ⟨rfl, ?_⟩
  have htrans : ∀ a b c : ℕ × Row,
      lexLe (rowKey a.2) (rowKey b.2) = true → lexLe (rowKey b.2) (rowKey c.2) = true →
      lexLe (rowKey a.2) (rowKey c.2) = true :=
    fun a b c h₁ h₂ => lexLe_trans_of _ _ _ h₁ h₂
  have htotal : ∀ a b : ℕ × Row,
      (lexLe (rowKey a.2) (rowKey b.2) || lexLe (rowKey b.2) (rowKey a.2)) = true :=
    fun a b => lexLe_total_of _ _
  have hs := @List.sorted_mergeSort (ℕ × Row)
    (fun a b => lexLe (rowKey a.2) (rowKey b.2)) htrans htotal
    ((groupbyAgg (rawRows rng n_rows seed)).idx.zip (groupbyAgg (rawRows rng n_rows seed)).rows)
  have hrows : (generate_synthetic_panel rng n_rows seed).rows
      = (((groupbyAgg (rawRows rng n_rows seed)).idx.zip
            (groupbyAgg (rawRows rng n_rows seed)).rows).mergeSort
          fun a b => lexLe (rowKey a.2) (rowKey b.2)).map Prod.snd := rfl
  have hp : List.Pairwise (fun r s : Row => lexLe (rowKey r) (rowKey s) = true)
      (generate_synthetic_panel rng n_rows seed).rows := by
    rw [hrows, List.pairwise_map]
    exact hs
  have hnd : List.Pairwise (fun r s : Row => rowKey r ≠ rowKey s)
      (generate_synthetic_panel rng n_rows seed).rows :=
    List.pairwise_map.mp (generate_key_nodup rng n_rows seed)
  refine (hp.and hnd).imp ?_
  intro a b hab
  obtain ⟨hle, hne⟩ := hab
  simp only [lexLe, rowKey, Bool.or_eq_true, Bool.and_eq_true, decide_eq_true_eq] at hle
  have hne' : ¬(a.firm_id = b.firm_id ∧ a.year = b.year) := by
    intro hcon
    exact hne (by rw [rowKey, rowKey, hcon.1, hcon.2])
  omega

theorem generate_sorted_fresh_index_witness :
    1 ≤ 5 ∧
    ((generate_synthetic_panel rng0 5 0).idx
        = List.range (generate_synthetic_panel rng0 5 0).rows.length ∧
     List.Pairwise
       (fun a b : Row => a.firm_id < b.firm_id ∨ (a.firm_id = b.firm_id ∧ a.year < b.year))
       (generate_synthetic_panel rng0 5 0).rows) :=
  ⟨by decide, generate_sorted_fresh_index rng0 5 0 (by decide)⟩

/-- C3: `validate_df` either returns the validated/coerced dataset
unchanged or fails with the aggregated failure list, and that list carries
one entry per violated constraint — the duplicate-key, non-finite-`x`,
non-finite-`y`, `treat ∉ [0, 1]` and emptiness failures all appear whenever
their constraint is violated, not just the first one encountered. -/
theorem validate_df_aggregates (df : List RawRow) :
    (validationErrors df = [] → validate_df df = .ok df) ∧
    (validationErrors df ≠ [] → validate_df df = .error (validationErrors df)) ∧
    (∀ es, validate_df df = .error es →
      (¬ (df.map rawKey).Nodup → "Duplicate (firm_id, year) detected." ∈ es) ∧
      ((df.all fun r => r.x.isFinite) = false → "x: non-finite values detected" ∈ es) ∧
      ((df.all fun r => r.y.isFinite) = false → "y: non-finite values detected" ∈ es) ∧
      ((df.all fun r => decide (r.treat = 0 ∨ r.treat = 1)) = false →
        "treat: isin 0 1 failed" ∈ es) ∧
      (df = [] → "Empty dataframe." ∈ es)) := by
  refine ⟨fun hnil => ?_, fun hne => ?_, fun es hes => ?_⟩
  · simp [validate_df, hnil]
  · simp [validate_df, List.isEmpty_iff, hne]
  · have hesv : es = validationErrors df := by
      by_cases hv : (validationErrors df).isEmpty
      · simp [validate_df, hv] at hes
      · simp [validate_df, hv] at hes
        exact hes.symm
    subst hesv
    refine ⟨fun hdup => ?_, fun hx => ?_, fun hy => ?_, fun ht => ?_, fun hempty => ?_⟩
    · simp only [validationErrors, List.mem_append]
      refine Or.inl (Or.inr ?_)
      simp [hdup]
    · simp only [validationErrors, List.mem_append]
      refine Or.inl (Or.inl (Or.inl (Or.inl (Or.inr ?_))))
      simp only [hx]
      simp
    · simp only [validationErrors, List.mem_append]
      refine Or.inl (Or.inl (Or.inr ?_))
      simp only [hy]
      simp
    · simp only [validationErrors, List.mem_append]
      refine Or.inl (Or.inl (Or.inl (Or.inr ?_)))
      simp only [ht]
      simp
    · subst hempty
      simp [validationErrors]

/-- A dataset violating several constraints at once: a duplicated
`(firm_id, year)` pair, a non-finite `x`, a non-finite `y` and a `treat`
outside of 0 and 1. -/
def badDf : List RawRow :=
  [{ firm_id := 1, year := 2010, x := .nonfinite, treat := 5, y := .fin 0 },
   { firm_id := 1, year := 2010, x := .fin 0, treat := 0, y := .nonfinite }]

theorem validate_df_aggregates_witness :
    "Duplicate (firm_id, year) detected." ∈ validationErrors badDf ∧
    "x: non-finite values detected" ∈ validationErrors badDf ∧
    "y: non-finite values detected" ∈ validationErrors badDf ∧
    "treat: isin 0 1 failed" ∈ validationErrors badDf := by
  have h := (validate_df_aggregates badDf).2.2 (validationErrors badDf)
    ((validate_df_aggregates badDf).2.1 (by decide))
  exact ⟨h.1 (by decide), h.2.1 (by decide), h.2.2.1 (by decide), h.2.2.2.1 (by decide)⟩

/-- C4: among the covariance modes, only `"cluster"` requires the
`firm_id` column — on a dataset lacking `firm_id` (but containing the
formula's columns, so the fit itself succeeds), `estimate` with
`cov_type = "cluster"` fails, while every ordinary or
heteroskedasticity-robust `cov_type` succeeds. -/
theorem cluster_requires_firm_id (df : Dfm) (formula : Formula) (m : FitRes)
    (hfit : olsFit df formula = .ok m)
    (hno : getCol df "firm_id" = none) :
    estimate df formula "cluster" = .error "KeyError: firm_id" ∧
    ∀ ct ∈ covKeywords, estimate df formula ct = .ok m := by
  constructor
  · simp [estimate, hfit, hno]
  · intro ct hct
    have hcl : ¬ ct = "cluster" := by
      intro hc
      subst hc
      exact absurd hct (by decide)
    simp [estimate, hfit, hcl, hct]

/-- A dataset with the formula's columns but no `firm_id` column. -/
def dfNoFirm : Dfm := [("y", [0, 1, 0]), ("treat", [0, 1, 1]), ("x", [1, 2, 3])]

def formula0 : Formula := { lhs := "y", rhs := ["treat", "x"] }

def fit0 : FitRes :=
  { endog := [0, 1, 0]
    exogNames := ["Intercept", "treat", "x"]
    exog := [[1, 1, 1], [0, 1, 1], [1, 2, 3]]
    groups := none }

theorem cluster_requires_firm_id_witness :
    estimate dfNoFirm formula0 "cluster" = .error "KeyError: firm_id" ∧
    ∀ ct ∈ covKeywords, estimate dfNoFirm formula0 ct = .ok fit0 :=
  cluster_requires_firm_id dfNoFirm formula0 fit0 rfl rfl

/-- C5: the output writer locates the treatment coefficient by the
parameter name `"treat"` whenever that name occurs in the recovered
parameter-name list, and otherwise (name list absent, empty, or without
`"treat"`) falls back to index 1, the second column after the intercept. -/
theorem get_param_idx_spec (param_names : Option (List String)) (ns : List String) :
    (param_names = some ns → "treat" ∈ ns →
      get_param_idx param_names "treat" = ns.indexOf "treat") ∧
    (param_names = none → get_param_idx param_names "treat" = 1) ∧
    (param_names = some ns → "treat" ∉ ns → get_param_idx param_names "treat" = 1) := by
  refine ⟨fun h hmem => ?_, fun h => ?_, fun h hmem => ?_⟩
  · subst h
    simp [get_param_idx, hmem, List.ne_nil_of_mem hmem]
  · subst h
    rfl
  · subst h
    simp [get_param_idx, hmem]

theorem get_param_idx_spec_witness :
    get_param_idx (some ["Intercept", "x", "treat"]) "treat"
      = ["Intercept", "x", "treat"].indexOf "treat" :=
  (get_param_idx_spec (some ["Intercept", "x", "treat"]) ["Intercept", "x", "treat"]).1
    rfl (by decide)

/-- C8: the source-revision lookup never aborts the run — `safe_git_commit`
returns the stripped revision on success and the sentinel `"unknown"` on
any failure, and it is the only pipeline step with graceful degradation:
whether `run` succeeds is independent of the git outcome, while a failure
of config loading, validation, estimation, or output writing aborts. -/
theorem safe_git_commit_graceful :
    (∀ e, safe_git_commit (.error e) = "unknown") ∧
    (∀ s, safe_git_commit (.ok s) = s.trim) ∧
    (∀ (rng : ℕ → Streams) (env : RunEnv) (g₁ g₂ : Except String String),
      (run rng { env with git := g₁ }).isOk = (run rng { env with git := g₂ }).isOk) ∧
    (∀ (rng : ℕ → Streams) (env : RunEnv) (e : String),
      env.config = .error e → run rng env = .error e) ∧
    (∀ (rng : ℕ → Streams) (env : RunEnv) (p : Params) (es : List String),
      env.config = .ok p →
      validate_df (toRaw (generate_synthetic_panel rng p.n_rows p.seed).rows) = .error es →
      run rng env = .error (String.intercalate "; " es)) ∧
    (∀ (rng : ℕ → Streams) (env : RunEnv) (p : Params) (vdf : List RawRow) (e : String),
      env.config = .ok p →
      validate_df (toRaw (generate_synthetic_panel rng p.n_rows p.seed).rows) = .ok vdf →
      estimate (toDfm vdf) p.formula p.cov_type = .error e →
      run rng env = .error e) ∧
    (∀ (rng : ℕ → Streams) (env : RunEnv) (e : String),
      env.io = .error e → ∀ m, run rng env ≠ .ok m) := by
  refine ⟨fun e => rfl, fun s => rfl, ?_, ?_, ?_, ?_, ?_⟩
  · intro rng env g₁ g₂
    obtain ⟨cfg, git, io⟩ := env
    cases cfg with
    | error e => rfl
    | ok p =>
      cases hv : validate_df (toRaw (generate_synthetic_panel rng p.n_rows p.seed).rows) with
      | error es => simp [run, hv]
      | ok vdf =>
        cases hest : estimate (toDfm vdf) p.formula p.cov_type with
        | error e => simp [run, hv, hest]
        | ok r =>
          cases io with
          | error e => simp [run, hv, hest]
          | ok u => simp [run, hv, hest, Except.isOk, Except.toBool]
  · intro rng env e hcfg
    simp [run, hcfg]
  · intro rng env p es hcfg hval
    simp [run, hcfg, hval]
  · intro rng env p vdf e hcfg hval hest
    simp [run, hcfg, hval, hest]
  · intro rng env e hio m
    obtain ⟨cfg, git, io⟩ := env
    simp only at hio
    subst hio
    cases cfg with
    | error e' => simp [run]
    | ok p =>
      cases hv : validate_df (toRaw (generate_synthetic_panel rng p.n_rows p.seed).rows) with
      | error es => simp [run, hv]
      | ok vdf =>
        cases hest : estimate (toDfm vdf) p.formula p.cov_type with
        | error e' => simp [run, hv, hest]
        | ok r => simp [run, hv, hest]

/-- An environment whose config parsing fails while everything else is
fine. -/
def envNoConfig : RunEnv :=
  { config := .error "missing config", git := .ok "abc123", io := .ok () }

theorem safe_git_commit_graceful_witness :
    run rng0 envNoConfig = .error "missing config" :=
  safe_git_commit_graceful.2.2.2.1 rng0 envNoConfig "missing config" rfl

end HousingDpe
